import Mathlib

/-!
Verification of the coordinate-fuzzing tool in `src/main.py`.

The model embeds the two components of the program:

* `fuzz_coordinate` — validation of one (latitude, longitude, radius)
  triple followed by a uniform-in-disk random offset and a saturating
  clamp (lines 29-69 of `src/main.py`).
* `process_file` — the line-oriented file pass (lines 71-138), modelled
  over a list of input lines (each line given without its terminator) and
  an explicit stream of random draws.

Python floats are modelled as either a finite value (finite IEEE values
are rational numbers; the arithmetic is idealised as exact real
arithmetic), one of the two infinities, or NaN.  The Python builtin
`float(x)` applied to an input is an external primitive; its outcome is
recorded in the type `CoordInput`: either a `PyFloat` value or a
conversion error (`ValueError`).  The transcendental arithmetic of the
offset step is over the real numbers.
-/

namespace GeoFuzz

/-- Value of a Python float: a finite value (modelled as a rational),
positive or negative infinity, or NaN. -/
inductive PyFloat where
  | fin : ℚ → PyFloat
  | posInf : PyFloat
  | negInf : PyFloat
  | nan : PyFloat
deriving DecidableEq

/-- Outcome of the Python conversion `float(x)` on a latitude or longitude
input: either a float value (possibly non-finite, e.g. for the inputs
`float("inf")` or `"nan"`), or a `ValueError` when the input does not
convert (e.g. the string `"abc"`); the offending input is carried along. -/
inductive CoordInput where
  | parsed : PyFloat → CoordInput
  | conversionError : String → CoordInput
deriving DecidableEq

/-- Chained Python comparison `lo <= v <= hi` on a float value, as a
boolean.  Any comparison involving NaN is false; `lo <= +inf` is true but
`+inf <= hi` is false for finite `hi`, and symmetrically for `-inf`, so
the chained comparison is false for every non-finite value. -/
def PyFloat.inRange (lo hi : ℚ) : PyFloat → Bool
  | PyFloat.fin x => decide (lo ≤ x) && decide (x ≤ hi)
  | PyFloat.posInf => false
  | PyFloat.negInf => false
  | PyFloat.nan => false

/-- Whether a Python float value is finite. -/
def PyFloat.isFinite : PyFloat → Bool
  | PyFloat.fin _ => true
  | _ => false

/-- Real value of a finite Python float.  Non-finite values are mapped to
zero; they never reach the arithmetic of the fuzzer because the range
checks reject them first. -/
noncomputable def PyFloat.toReal : PyFloat → ℝ
  | PyFloat.fin x => (x : ℝ)
  | _ => 0

/-- Error raised by `fuzz_coordinate`; the constructors correspond, in
order, to the four `ValueError` messages of `src/main.py`:
"Latitude and longitude must be numeric values.",
"Latitude must be between -90 and 90",
"Longitude must be between -180 and 180", and
"Radius must be greater than 0". -/
inductive FuzzError where
  | nonNumeric
  | latOutOfRange
  | lonOutOfRange
  | radiusNotPositive
deriving DecidableEq

/-- Angle drawn at line 58 of `src/main.py`: `2 * math.pi * random.random()`,
as a function of the raw draw `r1` of `random.random()`. -/
noncomputable def angleOf (r1 : ℝ) : ℝ := 2 * Real.pi * r1

/-- Displacement magnitude drawn at line 59:
`radius * math.sqrt(random.random())`, as a function of the raw draw `r2`. -/
noncomputable def distanceOf (radius r2 : ℝ) : ℝ := radius * Real.sqrt r2

/-- Pre-clamp fuzzed point of lines 62-63 of `src/main.py`:
`(latitude + distance * sin(angle), longitude + distance * cos(angle))`. -/
noncomputable def preClampPoint (latitude longitude radius r1 r2 : ℝ) : ℝ × ℝ :=
  (latitude + distanceOf radius r2 * Real.sin (angleOf r1),
   longitude + distanceOf radius r2 * Real.cos (angleOf r1))

/-- Saturating clamp `max(lo, min(hi, x))` of lines 66-67. -/
noncomputable def clip (lo hi x : ℝ) : ℝ := max lo (min hi x)

/-- Arithmetic core of `fuzz_coordinate` (lines 57-69): offset the point
by a random point of the disk of the given radius, then clamp the
latitude to [-90, 90] and the longitude to [-180, 180]. -/
noncomputable def fuzz_arith (latitude longitude radius r1 r2 : ℝ) : ℝ × ℝ :=
  (clip (-90) 90 (preClampPoint latitude longitude radius r1 r2).1,
   clip (-180) 180 (preClampPoint latitude longitude radius r1 r2).2)

/-- Translation of `fuzz_coordinate` (lines 29-69 of `src/main.py`).
Latitude and longitude arrive as the outcome of the Python conversion
`float(x)` (a conversion failure of either one raises the "must be
numeric" error); the validated values are then range-checked in source
order (`if not (-90 <= latitude <= 90)`, then longitude, then
`if radius <= 0`), and on success the random offset is applied.  The two
numbers `r1` and `r2` are the outcomes of the two `random.random()`
calls, each in [0, 1). -/
noncomputable def fuzz_coordinate (latitude longitude : CoordInput) (radius : ℚ)
    (r1 r2 : ℝ) : Except FuzzError (ℝ × ℝ) :=
  match latitude, longitude with
  | CoordInput.conversionError _, _ => Except.error FuzzError.nonNumeric
  | _, CoordInput.conversionError _ => Except.error FuzzError.nonNumeric
  | CoordInput.parsed lat, CoordInput.parsed lon =>
    if lat.inRange (-90) 90 = false then Except.error FuzzError.latOutOfRange
    else if lon.inRange (-180) 180 = false then Except.error FuzzError.lonOutOfRange
    else if radius ≤ 0 then Except.error FuzzError.radiusNotPositive
    else Except.ok (fuzz_arith lat.toReal lon.toReal (radius : ℝ) r1 r2)

/-- Planar Euclidean distance between two points of the plane, used to
state the displacement bound of the fuzzer. -/
noncomputable def euclidDist (p q : ℝ × ℝ) : ℝ :=
  Real.sqrt ((p.1 - q.1) ^ 2 + (p.2 - q.2) ^ 2)

lemma le_clip (lo hi x : ℝ) : lo ≤ clip lo hi x := le_max_left lo (min hi x)

lemma clip_le (lo hi x : ℝ) (h : lo ≤ hi) : clip lo hi x ≤ hi :=
  max_le h (min_le_left hi x)

lemma inRange_fin_eq_true {lo hi x : ℚ} (h1 : lo ≤ x) (h2 : x ≤ hi) :
    PyFloat.inRange lo hi (PyFloat.fin x) = true := by
  simp [PyFloat.inRange, h1, h2]

lemma inRange_eq_false_of_not_finite {lo hi : ℚ} {v : PyFloat}
    (h : v.isFinite = false) : PyFloat.inRange lo hi v = false := by
  cases v <;> simp_all [PyFloat.inRange, PyFloat.isFinite]

/-- C1: for every latitude in [-90, 90], longitude in [-180, 180] and
radius > 0, and every outcome of the two random draws, `fuzz_coordinate`
returns a pair whose latitude lies in [-90, 90] and whose longitude lies
in [-180, 180]. -/
theorem fuzz_coordinate_in_bounds (lat lon radius : ℚ) (r1 r2 : ℝ)
    (hla : -90 ≤ lat) (hlb : lat ≤ 90) (hoa : -180 ≤ lon) (hob : lon ≤ 180)
    (hr : 0 < radius) :
    ∃ p : ℝ × ℝ,
      fuzz_coordinate (CoordInput.parsed (PyFloat.fin lat))
        (CoordInput.parsed (PyFloat.fin lon)) radius r1 r2 = Except.ok p ∧
      -90 ≤ p.1 ∧ p.1 ≤ 90 ∧ -180 ≤ p.2 ∧ p.2 ≤ 180 := by
  refine ⟨fuzz_arith (lat : ℝ) (lon : ℝ) (radius : ℝ) r1 r2, ?_, ?_, ?_, ?_, ?_⟩
  · simp [fuzz_coordinate, inRange_fin_eq_true hla hlb, inRange_fin_eq_true hoa hob,
      hr.not_le, PyFloat.toReal]
  · exact le_clip _ _ _
  · exact clip_le _ _ _ (by norm_num)
  · exact le_clip _ _ _
  · exact clip_le _ _ _ (by norm_num)

/-- Witness for C1 at latitude 40, longitude -70, radius 1/100. -/
theorem fuzz_coordinate_in_bounds_witness :
    (-90 : ℚ) ≤ 40 ∧ (40 : ℚ) ≤ 90 ∧ (-180 : ℚ) ≤ -70 ∧ (-70 : ℚ) ≤ 180 ∧
      (0 : ℚ) < 1/100 ∧
      ∃ p : ℝ × ℝ,
        fuzz_coordinate (CoordInput.parsed (PyFloat.fin 40))
          (CoordInput.parsed (PyFloat.fin (-70))) (1/100) 0 0 = Except.ok p ∧
        -90 ≤ p.1 ∧ p.1 ≤ 90 ∧ -180 ≤ p.2 ∧ p.2 ≤ 180 :=
  ⟨by norm_num, by norm_num, by norm_num, by norm_num, by norm_num,
    fuzz_coordinate_in_bounds 40 (-70) (1/100) 0 0 (by norm_num) (by norm_num)
      (by norm_num) (by norm_num) (by norm_num)⟩

/-- C2: for every valid latitude, longitude and radius > 0, and every
outcome of the two raw random draws in [0, 1) (so that the angle
`2 * pi * r1` ranges over [0, 2*pi) and `u = r2` over [0, 1)), the planar
Euclidean distance between the original point and the pre-clamp fuzzed
point is at most the radius. -/
theorem preClampPoint_dist_le_radius (lat lon radius r1 r2 : ℝ)
    (hla : -90 ≤ lat) (hlb : lat ≤ 90) (hoa : -180 ≤ lon) (hob : lon ≤ 180)
    (hr : 0 < radius) (h1a : 0 ≤ r1) (h1b : r1 < 1) (h2a : 0 ≤ r2) (h2b : r2 < 1) :
    euclidDist (lat, lon) (preClampPoint lat lon radius r1 r2) ≤ radius := by
  have hd0 : 0 ≤ radius * Real.sqrt r2 := mul_nonneg hr.le (Real.sqrt_nonneg r2)
  have hsq : (lat - (lat + radius * Real.sqrt r2 * Real.sin (angleOf r1))) ^ 2 +
      (lon - (lon + radius * Real.sqrt r2 * Real.cos (angleOf r1))) ^ 2 =
      (radius * Real.sqrt r2) ^ 2 := by
    have htrig := Real.sin_sq_add_cos_sq (angleOf r1)
    nlinarith [htrig]
  have hunfold : euclidDist (lat, lon) (preClampPoint lat lon radius r1 r2) =
      Real.sqrt ((lat - (lat + radius * Real.sqrt r2 * Real.sin (angleOf r1))) ^ 2 +
        (lon - (lon + radius * Real.sqrt r2 * Real.cos (angleOf r1))) ^ 2) := rfl
  rw [hunfold, hsq, Real.sqrt_sq hd0]
  calc radius * Real.sqrt r2 ≤ radius * 1 :=
        mul_le_mul_of_nonneg_left (Real.sqrt_le_one.mpr h2b.le) hr.le
    _ = radius := mul_one radius

/-- Witness for C2 at the origin with radius 1 and both draws 0. -/
theorem preClampPoint_dist_le_radius_witness :
    (-90 : ℝ) ≤ 0 ∧ (0 : ℝ) ≤ 90 ∧ (-180 : ℝ) ≤ 0 ∧ (0 : ℝ) ≤ 180 ∧
      (0 : ℝ) < 1 ∧ (0 : ℝ) ≤ 0 ∧ (0 : ℝ) < 1 ∧
      euclidDist (0, 0) (preClampPoint 0 0 1 0 0) ≤ 1 :=
  ⟨by norm_num, by norm_num, by norm_num, by norm_num, by norm_num,
    le_refl 0, by norm_num,
    preClampPoint_dist_le_radius 0 0 1 0 0 (by norm_num) (by norm_num)
      (by norm_num) (by norm_num) (by norm_num) (le_refl 0) (by norm_num)
      (le_refl 0) (by norm_num)⟩

/-- C3: the four documented failure cases of `fuzz_coordinate`.
A latitude of 91 fails with the latitude range error, a longitude of 181
fails with the longitude range error, the non-convertible string "abc"
fails with the non-numeric error, a radius of 0 fails with the
non-positive-radius error, and in each case no fuzzed pair is returned. -/
theorem fuzz_coordinate_error_cases (r1 r2 : ℝ) :
    fuzz_coordinate (CoordInput.parsed (PyFloat.fin 91))
        (CoordInput.parsed (PyFloat.fin 0)) (1/100) r1 r2 =
      Except.error FuzzError.latOutOfRange ∧
    fuzz_coordinate (CoordInput.parsed (PyFloat.fin 0))
        (CoordInput.parsed (PyFloat.fin 181)) (1/100) r1 r2 =
      Except.error FuzzError.lonOutOfRange ∧
    fuzz_coordinate (CoordInput.conversionError "abc")
        (CoordInput.parsed (PyFloat.fin 0)) (1/100) r1 r2 =
      Except.error FuzzError.nonNumeric ∧
    fuzz_coordinate (CoordInput.parsed (PyFloat.fin 0))
        (CoordInput.parsed (PyFloat.fin 0)) 0 r1 r2 =
      Except.error FuzzError.radiusNotPositive ∧
    (∀ p : ℝ × ℝ,
      fuzz_coordinate (CoordInput.parsed (PyFloat.fin 91))
          (CoordInput.parsed (PyFloat.fin 0)) (1/100) r1 r2 ≠ Except.ok p ∧
      fuzz_coordinate (CoordInput.parsed (PyFloat.fin 0))
          (CoordInput.parsed (PyFloat.fin 181)) (1/100) r1 r2 ≠ Except.ok p ∧
      fuzz_coordinate (CoordInput.conversionError "abc")
          (CoordInput.parsed (PyFloat.fin 0)) (1/100) r1 r2 ≠ Except.ok p ∧
      fuzz_coordinate (CoordInput.parsed (PyFloat.fin 0))
          (CoordInput.parsed (PyFloat.fin 0)) 0 r1 r2 ≠ Except.ok p) := by
  have e1 : fuzz_coordinate (CoordInput.parsed (PyFloat.fin 91))
      (CoordInput.parsed (PyFloat.fin 0)) (1/100) r1 r2 =
      Except.error FuzzError.latOutOfRange := rfl
  have e2 : fuzz_coordinate (CoordInput.parsed (PyFloat.fin 0))
      (CoordInput.parsed (PyFloat.fin 181)) (1/100) r1 r2 =
      Except.error FuzzError.lonOutOfRange := rfl
  have e3 : fuzz_coordinate (CoordInput.conversionError "abc")
      (CoordInput.parsed (PyFloat.fin 0)) (1/100) r1 r2 =
      Except.error FuzzError.nonNumeric := rfl
  have e4 : fuzz_coordinate (CoordInput.parsed (PyFloat.fin 0))
      (CoordInput.parsed (PyFloat.fin 0)) 0 r1 r2 =
      Except.error FuzzError.radiusNotPositive := rfl
  refine ⟨e1, e2, e3, e4, fun p => ⟨?_, ?_, ?_, ?_⟩⟩
  · rw [e1]; simp
  · rw [e2]; simp
  · rw [e3]; simp
  · rw [e4]; simp

/-- C4, counterexample: a latitude that parses to positive infinity does
not fail with the non-numeric error; the conversion `float("inf")`
succeeds, the chained range comparison is false, and the latitude range
error is raised instead. -/
theorem fuzz_posInf_latitude_not_nonNumeric :
    fuzz_coordinate (CoordInput.parsed PyFloat.posInf)
        (CoordInput.parsed (PyFloat.fin 0)) (1/100) 0 0 =
      Except.error FuzzError.latOutOfRange ∧
    Except.error FuzzError.latOutOfRange ≠
      (Except.error FuzzError.nonNumeric : Except FuzzError (ℝ × ℝ)) :=
  ⟨rfl, by simp⟩

/-- C4, amended: a latitude or longitude input whose conversion to float
fails (a non-parseable string) yields the non-numeric error; an input
that parses to positive or negative infinity or to NaN passes the numeric
check and yields the corresponding out-of-range error (latitude first,
then longitude) rather than the non-numeric error. -/
theorem fuzz_nonfinite_error_kinds (s : String) (lat lon : CoordInput)
    (u v w : PyFloat) (radius : ℚ) (r1 r2 : ℝ)
    (hv : v.isFinite = false) (hu : u.inRange (-90) 90 = true)
    (hw : w.isFinite = false) :
    fuzz_coordinate (CoordInput.conversionError s) lon radius r1 r2 =
      Except.error FuzzError.nonNumeric ∧
    fuzz_coordinate lat (CoordInput.conversionError s) radius r1 r2 =
      Except.error FuzzError.nonNumeric ∧
    fuzz_coordinate (CoordInput.parsed v) (CoordInput.parsed u) radius r1 r2 =
      Except.error FuzzError.latOutOfRange ∧
    fuzz_coordinate (CoordInput.parsed u) (CoordInput.parsed w) radius r1 r2 =
      Except.error FuzzError.lonOutOfRange := by
  refine ⟨?_, ?_, ?_, ?_⟩
  · cases lon <;> rfl
  · cases lat <;> rfl
  · simp [fuzz_coordinate, inRange_eq_false_of_not_finite hv]
  · simp [fuzz_coordinate, hu, inRange_eq_false_of_not_finite hw]

/-- Witness for the amended C4, with NaN as the non-finite latitude, a
zero latitude passing the range check, and positive infinity as the
non-finite longitude. -/
theorem fuzz_nonfinite_error_kinds_witness :
    PyFloat.isFinite PyFloat.nan = false ∧
    PyFloat.inRange (-90) 90 (PyFloat.fin 0) = true ∧
    PyFloat.isFinite PyFloat.posInf = false ∧
    (fuzz_coordinate (CoordInput.conversionError "abc")
        (CoordInput.parsed (PyFloat.fin 0)) (1/100) 0 0 =
      Except.error FuzzError.nonNumeric ∧
    fuzz_coordinate (CoordInput.parsed (PyFloat.fin 0))
        (CoordInput.conversionError "abc") (1/100) 0 0 =
      Except.error FuzzError.nonNumeric ∧
    fuzz_coordinate (CoordInput.parsed PyFloat.nan)
        (CoordInput.parsed (PyFloat.fin 0)) (1/100) 0 0 =
      Except.error FuzzError.latOutOfRange ∧
    fuzz_coordinate (CoordInput.parsed (PyFloat.fin 0))
        (CoordInput.parsed PyFloat.posInf) (1/100) 0 0 =
      Except.error FuzzError.lonOutOfRange) :=
  ⟨by decide, by decide, by decide,
    fuzz_nonfinite_error_kinds "abc" (CoordInput.parsed (PyFloat.fin 0))
      (CoordInput.parsed (PyFloat.fin 0)) (PyFloat.fin 0) PyFloat.nan
      PyFloat.posInf (1/100) 0 0 (by decide) (by decide) (by decide)⟩

/-- Error that escapes `process_file` in the modelled fragment: the
`next(infile)` call of the header skip on an exhausted stream raises
`StopIteration`, which the `except Exception` handler of `process_file`
logs and re-raises.  Stream-level I/O failures are outside the model. -/
inductive PyError where
  | stopIteration
deriving DecidableEq

/-- Run configuration of one invocation (lines 20-25 of `src/main.py`):
uncertainty radius, latitude and longitude column indices, field
delimiter, and the header-skip flag.  Python strings are modelled
throughout the line pipeline as their sequences of characters, so the
delimiter is a list of characters.  The encoding option only affects
decoding, which is outside the model (lines arrive already decoded). -/
structure Config where
  radius : ℚ
  lat_col : ℕ
  lon_col : ℕ
  delimiter : List Char
  header : Bool

/-- Diagnostic recorded by the per-line handlers: a warning for a line
with too few columns (line 113 of `src/main.py`, which also logs the
number of columns found), or an error for a line on which a `ValueError`
was caught (line 127).  Both carry the 1-based line number. -/
inductive Diag where
  | warning (line_number : ℕ) (columns_found : ℕ)
  | error (line_number : ℕ)
deriving DecidableEq

/-- Python `str.strip()` with no argument (line 106 of `src/main.py`):
drop leading and trailing whitespace from the sequence of characters of
the line; modelled over the common whitespace characters. -/
def pyStrip (s : List Char) : List Char :=
  ((s.dropWhile Char.isWhitespace).reverse.dropWhile Char.isWhitespace).reverse

/-- First occurrence of the separator in a sequence: the characters
before it and the characters after it, or none when the separator does
not occur. -/
def findSplit (sep : List Char) : List Char → Option (List Char × List Char)
  | [] => none
  | c :: rest =>
    if sep.isPrefixOf (c :: rest) then some ([], (c :: rest).drop sep.length)
    else
      match findSplit sep rest with
      | none => none
      | some (before, after) => some (c :: before, after)

/-- Worker for `pySplit`: cut at each non-overlapping occurrence of the
separator, left to right.  The fuel argument bounds the number of cuts;
enough fuel is always supplied since every cut consumes at least one
character of a non-empty separator. -/
def pySplitGo (sep : List Char) : ℕ → List Char → List (List Char)
  | 0, s => [s]
  | fuel + 1, s =>
    match findSplit sep s with
    | none => [s]
    | some (before, after) => before :: pySplitGo sep fuel after

/-- Python `str.split(sep)` for a non-empty separator (line 111 of
`src/main.py`): the list of fields between consecutive occurrences of
the separator.  The empty-separator case raises a `ValueError` in Python
and is handled by the caller before splitting. -/
def pySplit (sep s : List Char) : List (List Char) :=
  pySplitGo sep (s.length + 1) s

/-- Processing of one non-empty, already-stripped line (lines 110-128 of
`src/main.py`): split on the delimiter (Python `str.split` raises
`ValueError` on an empty separator, which the per-line handler catches,
so an empty delimiter behaves like any other per-line `ValueError`);
if the field count does not cover both column indices, pass the line
through with a warning; otherwise fuzz the two designated fields and
either substitute the results back (joining with the same delimiter) or,
on a `ValueError` from the fuzzer, pass the line through with an error
diagnostic.  Returns the emitted line and the recorded diagnostic, if
any.  The conversion `float(field)` is the external primitive `parse`,
and the Python decimal rendering `str(x)` of a float is the external
primitive `fstr`. -/
noncomputable def processLine (parse : List Char → CoordInput)
    (fstr : ℝ → List Char) (cfg : Config) (draw : ℝ × ℝ) (line_number : ℕ)
    (line : List Char) : List Char × Option Diag :=
  if cfg.delimiter = [] then (line, some (Diag.error line_number))
  else
    let parts := pySplit cfg.delimiter line
    if parts.length ≤ max cfg.lat_col cfg.lon_col then
      (line, some (Diag.warning line_number parts.length))
    else
      let latitude := parts.getD cfg.lat_col []
      let longitude := parts.getD cfg.lon_col []
      match fuzz_coordinate (parse latitude) (parse longitude) cfg.radius
          draw.1 draw.2 with
      | Except.error _ => (line, some (Diag.error line_number))
      | Except.ok p =>
          (List.intercalate cfg.delimiter
            ((parts.set cfg.lat_col (fstr p.1)).set cfg.lon_col (fstr p.2)),
           none)

/-- Main loop of `process_file` (lines 105-128): lines are numbered from
`n` (the loop uses `enumerate(infile, start=1)`); each line is stripped
of surrounding whitespace, dropped if empty after stripping, and
otherwise handed to `processLine`.  The random source is modelled as a
family of draw pairs indexed by line number; every theorem below
quantifies over all outcomes, so this covers every behaviour of the
global generator.  Returns the emitted output lines (each written by the
source with a trailing newline, left implicit here) and the recorded
diagnostics, in order. -/
noncomputable def processLines (parse : List Char → CoordInput)
    (fstr : ℝ → List Char) (cfg : Config) (draws : ℕ → ℝ × ℝ) :
    ℕ → List (List Char) → List (List Char) × List Diag
  | _, [] => ([], [])
  | n, line :: rest =>
    if pyStrip line = [] then processLines parse fstr cfg draws (n + 1) rest
    else
      let r := processLine parse fstr cfg (draws n) n (pyStrip line)
      let tail := processLines parse fstr cfg draws (n + 1) rest
      (r.1 :: tail.1, r.2.toList ++ tail.2)

/-- Translation of `process_file` (lines 71-138 of `src/main.py`) over an
input already split into lines (each given without its terminator).  When
the header flag is set, the first line is consumed by `next(infile)`; on
an empty stream that call raises `StopIteration`, which the
`except Exception` handler re-raises as a file-level failure.  Otherwise
the remaining lines are processed by the main loop, numbered from 1. -/
noncomputable def process_file (parse : List Char → CoordInput)
    (fstr : ℝ → List Char) (cfg : Config) (draws : ℕ → ℝ × ℝ)
    (input : List (List Char)) : Except PyError (List (List Char) × List Diag) :=
  if cfg.header then
    match input with
    | [] => Except.error PyError.stopIteration
    | _ :: rest => Except.ok (processLines parse fstr cfg draws 1 rest)
  else Except.ok (processLines parse fstr cfg draws 1 input)

/-- Exit status of `main` (lines 141-151 of `src/main.py`): any exception
escaping `process_file` is caught and the process exits with status 1;
otherwise it logs success and exits with status 0. -/
def run_exit_code {α : Type} : Except PyError α → ℕ
  | Except.ok _ => 0
  | Except.error _ => 1

/-- Number of output lines produced by the main loop: one per input line
that is non-empty after stripping surrounding whitespace. -/
lemma processLines_length (parse : List Char → CoordInput)
    (fstr : ℝ → List Char) (cfg : Config) (draws : ℕ → ℝ × ℝ) :
    ∀ (n : ℕ) (input : List (List Char)),
      ((processLines parse fstr cfg draws n input).1).length =
        input.countP (fun l => !(pyStrip l == [])) := by
  intro n input
  induction input generalizing n with
  | nil => simp [processLines]
  | cons line rest ih =>
    by_cases h : pyStrip line = []
    · simp [processLines, h, List.countP_cons, ih]
    · simp [processLines, h, List.countP_cons, ih]

/-- C5, counterexample: the input line " 40.0" (with a leading space) and
lat_col 0, lon_col 1 has too few columns, but the line written to the
output is the whitespace-stripped "40.0", not the original line
verbatim. -/
theorem insufficient_columns_line_not_verbatim :
    process_file (fun s => CoordInput.conversionError (String.mk s))
        (fun _ => "".data) ⟨1, 0, 1, ",".data, false⟩ (fun _ => (0, 0))
        [" 40.0".data] =
      Except.ok (["40.0".data], [Diag.warning 1 1]) ∧
    "40.0".data ≠ " 40.0".data :=
  ⟨rfl, by decide⟩

/-- C5, amended: for every non-empty input line whose delimiter-split
field count (the split is applied to the line stripped of surrounding
whitespace) is insufficient to cover both column indices, the main loop
emits the whitespace-stripped line (otherwise unmodified), records a
warning diagnostic carrying the line number and the number of columns
found, and continues with the next line without raising. -/
theorem processLines_insufficient_columns (parse : List Char → CoordInput)
    (fstr : ℝ → List Char) (cfg : Config) (draws : ℕ → ℝ × ℝ) (n : ℕ)
    (line : List Char) (rest : List (List Char))
    (hd : cfg.delimiter ≠ []) (h1 : pyStrip line ≠ [])
    (h2 : (pySplit cfg.delimiter (pyStrip line)).length ≤
      max cfg.lat_col cfg.lon_col) :
    processLines parse fstr cfg draws n (line :: rest) =
      (pyStrip line :: (processLines parse fstr cfg draws (n + 1) rest).1,
       Diag.warning n (pySplit cfg.delimiter (pyStrip line)).length ::
         (processLines parse fstr cfg draws (n + 1) rest).2) := by
  simp [processLines, processLine, h1, hd, h2]

/-- Witness for the amended C5 on the line " 40.0" with lat_col 0 and
lon_col 1. -/
theorem processLines_insufficient_columns_witness :
    (",".data : List Char) ≠ [] ∧ pyStrip " 40.0".data ≠ [] ∧
    (pySplit ",".data (pyStrip " 40.0".data)).length ≤ max 0 1 ∧
    processLines (fun s => CoordInput.conversionError (String.mk s))
        (fun _ => "".data) ⟨1, 0, 1, ",".data, false⟩ (fun _ => (0, 0)) 1
        [" 40.0".data] =
      (pyStrip " 40.0".data ::
         (processLines (fun s => CoordInput.conversionError (String.mk s))
           (fun _ => "".data) ⟨1, 0, 1, ",".data, false⟩ (fun _ => (0, 0)) 2 []).1,
       Diag.warning 1 (pySplit ",".data (pyStrip " 40.0".data)).length ::
         (processLines (fun s => CoordInput.conversionError (String.mk s))
           (fun _ => "".data) ⟨1, 0, 1, ",".data, false⟩ (fun _ => (0, 0)) 2 []).2) :=
  ⟨by decide, by decide, by decide,
    processLines_insufficient_columns
      (fun s => CoordInput.conversionError (String.mk s)) (fun _ => "".data)
      ⟨1, 0, 1, ",".data, false⟩ (fun _ => (0, 0)) 1 " 40.0".data []
      (by decide) (by decide) (by decide)⟩

/-- C6, counterexample: on the input line " abc,0" (with a leading space)
the fuzzer fails with the non-numeric error, but the line written to the
output is the whitespace-stripped "abc,0", not the original line
verbatim. -/
theorem fuzzer_failure_line_not_verbatim :
    process_file (fun s => CoordInput.conversionError (String.mk s))
        (fun _ => "".data) ⟨1, 0, 1, ",".data, false⟩ (fun _ => (0, 0))
        [" abc,0".data] =
      Except.ok (["abc,0".data], [Diag.error 1]) ∧
    "abc,0".data ≠ " abc,0".data :=
  ⟨rfl, by decide⟩

/-- C6, amended: for every non-empty input line on which the fuzzer fails
(non-numeric coordinate, out-of-range coordinate, or non-positive
radius), the main loop emits the whitespace-stripped line (otherwise
unmodified), records an error diagnostic, and continues; moreover
`process_file` itself returns a result (never a file-level failure) on
every input except the empty-stream-with-header case, so per-line
failures never propagate. -/
theorem processLines_fuzzer_failure (parse : List Char → CoordInput)
    (fstr : ℝ → List Char) (cfg : Config) (draws : ℕ → ℝ × ℝ) (n : ℕ)
    (line : List Char) (rest : List (List Char)) (e : FuzzError)
    (hd : cfg.delimiter ≠ []) (h1 : pyStrip line ≠ [])
    (h2 : max cfg.lat_col cfg.lon_col <
      (pySplit cfg.delimiter (pyStrip line)).length)
    (hf : fuzz_coordinate
        (parse ((pySplit cfg.delimiter (pyStrip line)).getD cfg.lat_col []))
        (parse ((pySplit cfg.delimiter (pyStrip line)).getD cfg.lon_col []))
        cfg.radius (draws n).1 (draws n).2 = Except.error e) :
    processLines parse fstr cfg draws n (line :: rest) =
      (pyStrip line :: (processLines parse fstr cfg draws (n + 1) rest).1,
       Diag.error n :: (processLines parse fstr cfg draws (n + 1) rest).2) ∧
    ∀ input : List (List Char), cfg.header = false ∨ input ≠ [] →
      ∃ r, process_file parse fstr cfg draws input = Except.ok r := by
  simp only [List.getD_eq_getElem?_getD] at hf
  constructor
  · simp [processLines, processLine, h1, hd, not_le.mpr h2, hf]
  · intro input hin
    by_cases hh : cfg.header
    · match input with
      | [] => exact absurd (Or.resolve_left hin (by simp [hh])) (by simp)
      | l0 :: rest2 =>
          exact ⟨processLines parse fstr cfg draws 1 rest2,
            by simp [process_file, hh]⟩
    · exact ⟨processLines parse fstr cfg draws 1 input,
        by simp [process_file, hh]⟩

/-- Witness for the amended C6 on the line " abc,0". -/
theorem processLines_fuzzer_failure_witness :
    (",".data : List Char) ≠ [] ∧ pyStrip " abc,0".data ≠ [] ∧
    max 0 1 < (pySplit ",".data (pyStrip " abc,0".data)).length ∧
    fuzz_coordinate (CoordInput.conversionError "abc")
        (CoordInput.conversionError "0") 1 0 0 =
      Except.error FuzzError.nonNumeric ∧
    (processLines (fun s => CoordInput.conversionError (String.mk s))
        (fun _ => "".data) ⟨1, 0, 1, ",".data, false⟩ (fun _ => (0, 0)) 1
        [" abc,0".data] =
      (pyStrip " abc,0".data ::
         (processLines (fun s => CoordInput.conversionError (String.mk s))
           (fun _ => "".data) ⟨1, 0, 1, ",".data, false⟩ (fun _ => (0, 0)) 2 []).1,
       Diag.error 1 ::
         (processLines (fun s => CoordInput.conversionError (String.mk s))
           (fun _ => "".data) ⟨1, 0, 1, ",".data, false⟩ (fun _ => (0, 0)) 2 []).2) ∧
     ∀ input : List (List Char),
       (⟨1, 0, 1, ",".data, false⟩ : Config).header = false ∨ input ≠ [] →
       ∃ r, process_file (fun s => CoordInput.conversionError (String.mk s))
           (fun _ => "".data) ⟨1, 0, 1, ",".data, false⟩ (fun _ => (0, 0))
           input = Except.ok r) :=
  ⟨by decide, by decide, by decide, rfl,
    processLines_fuzzer_failure
      (fun s => CoordInput.conversionError (String.mk s)) (fun _ => "".data)
      ⟨1, 0, 1, ",".data, false⟩ (fun _ => (0, 0)) 1 " abc,0".data []
      FuzzError.nonNumeric (by decide) (by decide) (by decide) rfl⟩

/-- C7: when the header flag is set, `process_file` discards the first
line unconditionally — the result is exactly the main loop run on the
remaining lines, numbered from 1, so the first line is never parsed,
never contributes a diagnostic or a line count, and is never written;
in particular the two-line input "lat,lon", "40.0,-70.0" produces exactly
one output line. -/
theorem process_file_header_discard (parse : List Char → CoordInput)
    (fstr : ℝ → List Char) (cfg : Config) (draws : ℕ → ℝ × ℝ)
    (l0 : List Char) (rest : List (List Char)) (hh : cfg.header = true) :
    process_file parse fstr cfg draws (l0 :: rest) =
      Except.ok (processLines parse fstr cfg draws 1 rest) ∧
    ∀ out, process_file parse fstr cfg draws
        ["lat,lon".data, "40.0,-70.0".data] = Except.ok out →
      out.1.length = 1 := by
  constructor
  · simp [process_file, hh]
  · intro out hout
    simp [process_file, hh] at hout
    rw [← hout, processLines_length]
    decide

/-- Witness for C7 with the header "h" over an otherwise empty stream. -/
theorem process_file_header_discard_witness :
    (⟨1, 0, 1, ",".data, true⟩ : Config).header = true ∧
    (process_file (fun s => CoordInput.conversionError (String.mk s))
        (fun _ => "".data) ⟨1, 0, 1, ",".data, true⟩ (fun _ => (0, 0))
        ["h".data] =
      Except.ok (processLines
        (fun s => CoordInput.conversionError (String.mk s)) (fun _ => "".data)
        ⟨1, 0, 1, ",".data, true⟩ (fun _ => (0, 0)) 1 []) ∧
     ∀ out, process_file (fun s => CoordInput.conversionError (String.mk s))
         (fun _ => "".data) ⟨1, 0, 1, ",".data, true⟩ (fun _ => (0, 0))
         ["lat,lon".data, "40.0,-70.0".data] = Except.ok out →
       out.1.length = 1) :=
  ⟨rfl,
    process_file_header_discard
      (fun s => CoordInput.conversionError (String.mk s)) (fun _ => "".data)
      ⟨1, 0, 1, ",".data, true⟩ (fun _ => (0, 0)) "h".data [] rfl⟩

/-- C8, counterexample: the whitespace-only line "   " is non-empty (and
has no trailing line-ending to strip), yet it produces no output line:
the source strips all surrounding whitespace before the emptiness test,
so the whole-file output for this single line is empty. -/
theorem whitespace_line_dropped :
    process_file (fun s => CoordInput.conversionError (String.mk s))
        (fun _ => "".data) ⟨1, 0, 1, ",".data, false⟩ (fun _ => (0, 0))
        ["   ".data] =
      Except.ok ([], []) ∧
    ("   ".data : List Char) ≠ [] :=
  ⟨rfl, by decide⟩

/-- C8, amended: the output of `process_file` has exactly one line per
input line (after any header skip) that is non-empty after stripping
leading and trailing whitespace (including any line-ending); lines that
are whitespace-only or empty produce no output line, and every other
line produces exactly one output line, fuzzed or passed through. -/
theorem process_file_line_count (parse : List Char → CoordInput)
    (fstr : ℝ → List Char) (cfg : Config) (draws : ℕ → ℝ × ℝ)
    (input : List (List Char)) (out : List (List Char) × List Diag)
    (h : process_file parse fstr cfg draws input = Except.ok out) :
    out.1.length =
      (if cfg.header then input.tail else input).countP
        (fun l => !(pyStrip l == [])) := by
  by_cases hh : cfg.header
  · match input with
    | [] => simp [process_file, hh] at h
    | l0 :: rest =>
        simp [process_file, hh] at h
        rw [← h, processLines_length]
        simp [hh]
  · simp [process_file, hh] at h
    rw [← h, processLines_length]
    simp [hh]

/-- Witness for the amended C8 on an input of one empty and one
short line. -/
theorem process_file_line_count_witness :
    process_file (fun s => CoordInput.conversionError (String.mk s))
        (fun _ => "".data) ⟨1, 0, 1, ",".data, false⟩ (fun _ => (0, 0))
        ["".data, " 40.0".data] =
      Except.ok (["40.0".data], [Diag.warning 2 1]) ∧
    ((["40.0".data], [Diag.warning 2 1]) :
        List (List Char) × List Diag).1.length =
      (if (⟨1, 0, 1, ",".data, false⟩ : Config).header
        then ["".data, " 40.0".data].tail else ["".data, " 40.0".data]).countP
        (fun l => !(pyStrip l == [])) :=
  ⟨rfl,
    process_file_line_count (fun s => CoordInput.conversionError (String.mk s))
      (fun _ => "".data) ⟨1, 0, 1, ",".data, false⟩ (fun _ => (0, 0))
      ["".data, " 40.0".data] (["40.0".data], [Diag.warning 2 1]) rfl⟩

/-- C9, counterexample: on the input line " x,1,2" (leading space) with
lat_col 1 and lon_col 2 and a conversion primitive sending every field to
0.0, the fuzzer succeeds, but the emitted line is built from the fields
of the whitespace-stripped line — "x" and not " x" — so it differs from
the field sequence of the input line with only the two coordinate fields
replaced (here the rendering primitive prints every float as "F"). -/
theorem success_output_uses_stripped_fields :
    process_file (fun _ => CoordInput.parsed (PyFloat.fin 0))
        (fun _ => "F".data) ⟨1, 1, 2, ",".data, false⟩ (fun _ => (0, 0))
        [" x,1,2".data] =
      Except.ok (["x,F,F".data], []) ∧
    "x,F,F".data ≠ " x,F,F".data :=
  ⟨rfl, by decide⟩

/-- C9, amended: for every non-empty input line on which the fuzzer
succeeds, the emitted output line is the delimiter-join of the
whitespace-stripped line's field sequence with the latitude and longitude
fields replaced by the rendering of the fuzzed floats: the field count is
preserved, the longitude field holds the rendered fuzzed longitude, the
latitude field holds the rendered fuzzed latitude (when the two column
indices differ), every other field is unchanged in place, no diagnostic
is recorded, and processing continues with the next line. -/
theorem processLines_success_replaces_fields (parse : List Char → CoordInput)
    (fstr : ℝ → List Char) (cfg : Config) (draws : ℕ → ℝ × ℝ) (n : ℕ)
    (line : List Char) (rest : List (List Char)) (p : ℝ × ℝ)
    (hd : cfg.delimiter ≠ []) (h1 : pyStrip line ≠ [])
    (h2 : max cfg.lat_col cfg.lon_col <
      (pySplit cfg.delimiter (pyStrip line)).length)
    (hf : fuzz_coordinate
        (parse ((pySplit cfg.delimiter (pyStrip line)).getD cfg.lat_col []))
        (parse ((pySplit cfg.delimiter (pyStrip line)).getD cfg.lon_col []))
        cfg.radius (draws n).1 (draws n).2 = Except.ok p) :
    ∃ newParts : List (List Char),
      processLines parse fstr cfg draws n (line :: rest) =
        (List.intercalate cfg.delimiter newParts ::
           (processLines parse fstr cfg draws (n + 1) rest).1,
         (processLines parse fstr cfg draws (n + 1) rest).2) ∧
      newParts.length = (pySplit cfg.delimiter (pyStrip line)).length ∧
      newParts[cfg.lon_col]? = some (fstr p.2) ∧
      (cfg.lat_col ≠ cfg.lon_col → newParts[cfg.lat_col]? = some (fstr p.1)) ∧
      ∀ j, j ≠ cfg.lat_col → j ≠ cfg.lon_col →
        newParts[j]? = (pySplit cfg.delimiter (pyStrip line))[j]? := by
  simp only [List.getD_eq_getElem?_getD] at hf
  refine ⟨((pySplit cfg.delimiter (pyStrip line)).set cfg.lat_col
    (fstr p.1)).set cfg.lon_col (fstr p.2), ?_, ?_, ?_, ?_, ?_⟩
  · simp [processLines, processLine, h1, hd, not_le.mpr h2, hf]
  · simp [List.length_set]
  · exact List.getElem?_set_self (by
      rw [List.length_set]
      exact lt_of_le_of_lt (le_max_right _ _) h2)
  · intro hne
    rw [List.getElem?_set_ne (Ne.symm hne)]
    exact List.getElem?_set_self (lt_of_le_of_lt (le_max_left _ _) h2)
  · intro j hj1 hj2
    rw [List.getElem?_set_ne (Ne.symm hj2), List.getElem?_set_ne (Ne.symm hj1)]

/-- Witness for the amended C9 on the line "a,1,2" with lat_col 1 and
lon_col 2. -/
theorem processLines_success_replaces_fields_witness :
    (",".data : List Char) ≠ [] ∧ pyStrip "a,1,2".data ≠ [] ∧
    max 1 2 < (pySplit ",".data (pyStrip "a,1,2".data)).length ∧
    fuzz_coordinate (CoordInput.parsed (PyFloat.fin 0))
        (CoordInput.parsed (PyFloat.fin 0)) 1 0 0 =
      Except.ok (fuzz_arith (PyFloat.fin 0).toReal (PyFloat.fin 0).toReal
        ((1 : ℚ) : ℝ) 0 0) ∧
    ∃ newParts : List (List Char),
      processLines (fun _ => CoordInput.parsed (PyFloat.fin 0))
          (fun _ => "F".data) ⟨1, 1, 2, ",".data, false⟩ (fun _ => (0, 0)) 1
          ["a,1,2".data] =
        (List.intercalate ",".data newParts ::
           (processLines (fun _ => CoordInput.parsed (PyFloat.fin 0))
             (fun _ => "F".data) ⟨1, 1, 2, ",".data, false⟩
             (fun _ => (0, 0)) 2 []).1,
         (processLines (fun _ => CoordInput.parsed (PyFloat.fin 0))
             (fun _ => "F".data) ⟨1, 1, 2, ",".data, false⟩
             (fun _ => (0, 0)) 2 []).2) ∧
      newParts.length = (pySplit ",".data (pyStrip "a,1,2".data)).length ∧
      newParts[2]? = some "F".data ∧
      ((1 : ℕ) ≠ 2 → newParts[1]? = some "F".data) ∧
      ∀ j, j ≠ 1 → j ≠ 2 →
        newParts[j]? = (pySplit ",".data (pyStrip "a,1,2".data))[j]? :=
  ⟨by decide, by decide, by decide, rfl,
    processLines_success_replaces_fields
      (fun _ => CoordInput.parsed (PyFloat.fin 0)) (fun _ => "F".data)
      ⟨1, 1, 2, ",".data, false⟩ (fun _ => (0, 0)) 1 "a,1,2".data []
      (fuzz_arith (PyFloat.fin 0).toReal (PyFloat.fin 0).toReal
        ((1 : ℚ) : ℝ) 0 0)
      (by decide) (by decide) (by decide) rfl⟩

/-- C10: when the header flag is set and the input stream has no lines,
the `next(infile)` call raises `StopIteration`, which escapes
`process_file` as a file-level failure; `main` then exits with a non-zero
status, and no result (in particular no empty output) is produced. -/
theorem process_file_empty_header_fails (parse : List Char → CoordInput)
    (fstr : ℝ → List Char) (cfg : Config) (draws : ℕ → ℝ × ℝ)
    (hh : cfg.header = true) :
    process_file parse fstr cfg draws [] = Except.error PyError.stopIteration ∧
    run_exit_code (process_file parse fstr cfg draws []) = 1 ∧
    ∀ r, process_file parse fstr cfg draws [] ≠ Except.ok r := by
  refine ⟨?_, ?_, ?_⟩ <;> simp [process_file, hh, run_exit_code]

/-- Witness for C10 with the header flag set. -/
theorem process_file_empty_header_fails_witness :
    (⟨1, 0, 1, ",".data, true⟩ : Config).header = true ∧
    (process_file (fun s => CoordInput.conversionError (String.mk s))
        (fun _ => "".data) ⟨1, 0, 1, ",".data, true⟩ (fun _ => (0, 0)) [] =
      Except.error PyError.stopIteration ∧
     run_exit_code (process_file
        (fun s => CoordInput.conversionError (String.mk s)) (fun _ => "".data)
        ⟨1, 0, 1, ",".data, true⟩ (fun _ => (0, 0)) []) = 1 ∧
     ∀ r, process_file (fun s => CoordInput.conversionError (String.mk s))
        (fun _ => "".data) ⟨1, 0, 1, ",".data, true⟩ (fun _ => (0, 0)) [] ≠
        Except.ok r) :=
  ⟨rfl,
    process_file_empty_header_fails
      (fun s => CoordInput.conversionError (String.mk s)) (fun _ => "".data)
      ⟨1, 0, 1, ",".data, true⟩ (fun _ => (0, 0)) rfl⟩

end GeoFuzz
